import Mathlib

/-
Verification of the shill WiFi connection-management core against its
specification.

The endpoint parsing layer is embedded from src/wifi_endpoint.cc.  The
connection controller (WiFi::ConnectTo, WiFi::DisconnectFrom,
WiFi::CurrentBSSChanged, WiFi::StateChanged, WiFi::ScanTask,
WiFi::BSSAddedTask, WiFi::BSSRemovedTask and the service directory in
wifi.cc / wifi_service.cc) is declared in src/wifi.h and exercised by the
WiFiMainTest suite, but its implementation file is not part of the source
tree; those operations are modelled from the specification (sections 3,
4.1-4.4) and are marked as such in their doc comments.
-/

namespace Shill

/-- Security mode of an endpoint or service, as produced by
`WiFiEndpoint::ParseSecurity` (flimflam security constants): 802.1x, RSN,
WPA, WEP or none, plus the PSK pseudo-mode used by service lookup. -/
inductive Security where
  | none
  | wep
  | wpa
  | rsn
  | psk
  | sec8021x
deriving DecidableEq, Repr

/-- Network mode of an endpoint: infrastructure (managed) or ad-hoc,
as produced by `WiFiEndpoint::ParseMode`. -/
inductive Mode where
  | managed
  | adhoc
deriving DecidableEq, Repr

/-- A discovered access point (BSS), as constructed by the
`WiFiEndpoint` constructor in src/wifi_endpoint.cc.  `mode` is an
`Option` because `ParseMode` returns NULL on an unrecognized mode string
and the constructor continues with an empty mode. -/
structure Endpoint where
  ssid : List Nat
  bssid : List Nat
  signal : Int
  mode : Option Mode
  security : Security
deriving DecidableEq, Repr

/-- The suffix "-eap" that `WiFiEndpoint::ParseKeyManagementMethods`
matches (via `EndsWith`) to classify a key-management entry as 802.1x. -/
def kKeyManagementMethodSuffixEAP : String := "-eap"

/-- The suffix "-psk" that `WiFiEndpoint::ParseKeyManagementMethods`
matches (via `EndsWith`) to classify a key-management entry as PSK. -/
def kKeyManagementMethodSuffixPSK : String := "-psk"

/-- Result of `WiFiEndpoint::ParseKeyManagementMethods`: which of the two
key-management classes were mentioned in a `KeyMgmt` string list. -/
structure KeyMgmtMethods where
  has8021x : Bool
  hasPSK : Bool
deriving DecidableEq, Repr

/-- Embedding of `WiFiEndpoint::ParseKeyManagementMethods`
(src/wifi_endpoint.cc lines 154-177).  The argument is `none` when the
RSN/WPA dictionary is absent or has no `KeyMgmt` entry (the function
returns early, leaving the set empty); otherwise each list entry ending
in "-eap" registers 802.1x and each entry ending in "-psk" registers
PSK. -/
def ParseKeyManagementMethods (entries : Option (List String)) : KeyMgmtMethods :=
  match entries with
  | Option.none => ⟨false, false⟩
  | Option.some l =>
    l.foldl
      (fun acc s =>
        if s.endsWith kKeyManagementMethodSuffixEAP then { acc with has8021x := true }
        else if s.endsWith kKeyManagementMethodSuffixPSK then { acc with hasPSK := true }
        else acc)
      ⟨false, false⟩

/-- A raw BSS property bag as delivered with a BSSAdded event.  Each
field is `none` when the corresponding key (`SSID`, `BSSID`, `Signal`,
`Mode`, `RSN`, `WPA`, `Privacy`) is absent from the
map<string, DBus::Variant>.  For `rsn` and `wpa` the inner value is the
`KeyMgmt` string list of the nested dictionary (`none` also covers a
dictionary without a `KeyMgmt` entry, which parses identically). -/
structure BSSProperties where
  ssid : Option (List Nat)
  bssid : Option (List Nat)
  signal : Option Int
  mode : Option String
  rsn : Option (List String)
  wpa : Option (List String)
  privacy : Option Bool
deriving DecidableEq, Repr

/-- Embedding of `WiFiEndpoint::ParseSecurity` (src/wifi_endpoint.cc
lines 113-151): 802.1x if either RSN or WPA key management mentions an
EAP method; else RSN if RSN mentions PSK; else WPA if WPA mentions PSK;
else WEP if the `Privacy` flag is set; else none. -/
def ParseSecurity (p : BSSProperties) : Security :=
  let rsnMethods := ParseKeyManagementMethods p.rsn
  let wpaMethods := ParseKeyManagementMethods p.wpa
  let wepPrivacy := p.privacy.getD false
  if rsnMethods.has8021x || wpaMethods.has8021x then Security.sec8021x
  else if rsnMethods.hasPSK then Security.rsn
  else if wpaMethods.hasPSK then Security.wpa
  else if wepPrivacy then Security.wep
  else Security.none

/-- The wpa_supplicant mode string for infrastructure networks. -/
def kNetworkModeInfrastructure : String := "infrastructure"

/-- The wpa_supplicant mode string for ad-hoc networks. -/
def kNetworkModeAdHoc : String := "ad-hoc"

/-- Embedding of `WiFiEndpoint::ParseMode` (src/wifi_endpoint.cc lines
98-110): maps the wpa_supplicant mode string to the flimflam mode
constant, returning NULL (here `none`) for AP mode or an unknown mode. -/
def ParseMode (modeString : String) : Option Mode :=
  if modeString = kNetworkModeInfrastructure then Option.some Mode.managed
  else if modeString = kNetworkModeAdHoc then Option.some Mode.adhoc
  else Option.none

/-- Embedding of the `WiFiEndpoint` constructor (src/wifi_endpoint.cc
lines 23-49).  The constructor dereferences `properties.find(...)` for
the `SSID`, `BSSID`, `Signal` and `Mode` keys without checking for
presence — its own comment reads "XXX will segfault on missing
properties" — and then indexes `bssid_[0]`..`bssid_[5]` to format the
BSSID string.  A result of `none` models that undefined behavior (the
process crash): no endpoint value is ever produced on such inputs. -/
def WiFiEndpointConstruct (p : BSSProperties) : Option Endpoint :=
  match p.ssid, p.bssid, p.signal, p.mode with
  | Option.some ssidBytes, Option.some bssidBytes, Option.some sig, Option.some modeString =>
    if bssidBytes.length < 6 then Option.none
    else
      Option.some
        { ssid := ssidBytes
          bssid := bssidBytes
          signal := sig
          mode := ParseMode modeString
          security := ParseSecurity p }
  | _, _, _, _ => Option.none

/-- Connection state of a service (spec section 3 data model). -/
inductive ServiceState where
  | idle
  | associating
  | configuring
  | connected
  | portal
  | online
  | failure
deriving DecidableEq, Repr

/-- Station state reported by the supplicant (spec sections 3 and 6),
plus the initial `unknown` sentinel before any report is received. -/
inductive SupplicantState where
  | unknown
  | disconnected
  | scanning
  | authenticating
  | associating
  | associated
  | fourWayHandshake
  | groupHandshake
  | completed
deriving DecidableEq, Repr

/-- Modelled from the spec: the forward order on station states (spec
section 3, "Forward Station-State transitions"), used by the missing
`WiFi::StateChanged` in wifi.cc to decide whether a report is a forward
step.  Larger rank means further along the association handshake. -/
def SupplicantState.rank : SupplicantState → Nat
  | .unknown => 0
  | .disconnected => 1
  | .scanning => 2
  | .authenticating => 3
  | .associating => 4
  | .associated => 5
  | .fourWayHandshake => 6
  | .groupHandshake => 7
  | .completed => 8

/-- A logical network service (spec section 3 data model): grouping key
fields (SSID, mode, security), the hidden and favorite flags, the
connection state, and a liveness flag (`live := false` once the service
has been destroyed; destroyed entries stay in the directory list so that
service indices remain stable). -/
structure Service where
  ssid : List Nat
  mode : Option Mode
  security : Security
  hidden : Bool
  favorite : Bool
  state : ServiceState
  live : Bool
deriving DecidableEq, Repr

/-- An outbound command to the station protocol adapter (spec section
4.4): the observable effect of a controller operation. -/
inductive Command where
  | addNetwork (service : Nat)
  | selectNetwork (handle : Nat)
  | disconnect
  | removeNetwork (handle : Nat)
  | scan (ssids : List (List Nat))
deriving DecidableEq, Repr

/-- Modelled from the spec: the controller and directory state owned by
the missing wifi.cc implementation (fields declared in src/wifi.h lines
349-391): the service directory, the endpoint-to-service map
(`endpoint_by_rpcid_` plus per-endpoint service membership), the
`current_service_` and `pending_service_` slots, the network-handle map
(`rpcid_by_service_`), the last reported supplicant state, a counter for
fresh network handles and the scan-pending flag.  Services and network
handles are identified by natural numbers (indices into `services` and
allocation order respectively). -/
structure WiFiState where
  services : List Service
  endpointService : List (String × Nat)
  currentService : Option Nat
  pendingService : Option Nat
  rpcidByService : List (Nat × Nat)
  supplicantState : SupplicantState
  nextHandle : Nat
  scanPending : Bool
deriving DecidableEq, Repr

/-- The controller state at startup: empty directory, both slots empty,
supplicant state unknown (src/wifi.h `kInterfaceStateUnknown`, test
WiFiMainTest.InitialSupplicantState). -/
def initState : WiFiState :=
  { services := []
    endpointService := []
    currentService := Option.none
    pendingService := Option.none
    rpcidByService := []
    supplicantState := SupplicantState.unknown
    nextHandle := 0
    scanPending := false }

/-- Lookup in an association list (first matching key wins). -/
def lookupAssoc {α β : Type} [DecidableEq α] : List (α × β) → α → Option β
  | [], _ => Option.none
  | (k, v) :: rest, key => if k = key then Option.some v else lookupAssoc rest key

/-- Remove every entry with the given key from an association list. -/
def removeAssoc {α β : Type} [DecidableEq α] : List (α × β) → α → List (α × β)
  | [], _ => []
  | (k, v) :: rest, key =>
    if k = key then removeAssoc rest key else (k, v) :: removeAssoc rest key

/-- Modelled from the spec: the security equivalence classes used by the
missing service lookup (`WiFi::FindService` / the service security match
in wifi_service.cc): `wpa`, `rsn` and `psk` fall into one PSK class
(spec section 3 lists "RSN/PSK" as one classification;
WiFiMainTest.FindServiceWPA pins `wpa`, `rsn` and `psk` as mutually
matching while WiFiMainTest.FindServiceWEP keeps `wep` distinct). -/
def securityClass : Security → Security
  | .wpa => .psk
  | .rsn => .psk
  | s => s

/-- Modelled from the spec: the missing `WiFi::FindService` (declared in
wifi.cc's era as lookup by (SSID, mode, security classification), spec
section 4.2).  Returns the index of the first live service whose SSID
and mode match exactly and whose security falls in the same security
class. -/
def findServiceAux (svs : List Service) (i : Nat) (ssid : List Nat)
    (mode : Option Mode) (security : Security) : Option Nat :=
  match svs with
  | [] => Option.none
  | sv :: rest =>
    if sv.live = true ∧ sv.ssid = ssid ∧ sv.mode = mode ∧
        securityClass sv.security = securityClass security
    then Option.some i
    else findServiceAux rest (i + 1) ssid mode security

/-- Modelled from the spec: service directory lookup by
(SSID, mode, security classification); see `findServiceAux`. -/
def findService (st : WiFiState) (ssid : List Nat) (mode : Option Mode)
    (security : Security) : Option Nat :=
  findServiceAux st.services 0 ssid mode security

/-- Set the connection state of the service at index `i`. -/
def setServiceState : List Service → Nat → ServiceState → List Service
  | [], _, _ => []
  | sv :: rest, 0, s => { sv with state := s } :: rest
  | sv :: rest, Nat.succ i, s => sv :: setServiceState rest i s

/-- Mark the service at index `i` as destroyed (`live := false`). -/
def destroyService : List Service → Nat → List Service
  | [], _ => []
  | sv :: rest, 0 => { sv with live := false } :: rest
  | sv :: rest, Nat.succ i => sv :: destroyService rest i

/-- The connection state of the service at index `i` (idle when out of
range). -/
def serviceStateAt (st : WiFiState) (i : Nat) : ServiceState :=
  match st.services.get? i with
  | Option.some sv => sv.state
  | Option.none => ServiceState.idle

/-- Clear a controller slot when it references the given service. -/
def clearSlot (slot : Option Nat) (sid : Nat) : Option Nat :=
  if slot = Option.some sid then Option.none else slot

/-- Modelled from the spec: the missing `WiFi::DisconnectFrom` in
wifi.cc (spec section 4.3; declared at src/wifi.h line 146).  If the
service is current, the adapter is asked to `Disconnect`; on success no
state changes until the adapter reports the resulting BSS change, while
a "not connected" RPC failure (`rpcFails`) falls back to `RemoveNetwork`
on the service's handle and clears `current_service` (test
WiFiMainTest.DisconnectCurrentServiceFailure).  If the service is
pending, the attempt is cancelled locally: `pending_service` is cleared
immediately and the service returns to idle (src/wifi.h lines 143-145;
tests WiFiMainTest.DisconnectPendingService and
DisconnectPendingServiceWithCurrent show the supplicant `Disconnect`
call).  Otherwise the request is a no-op. -/
def disconnectFrom (st : WiFiState) (s : Nat) (rpcFails : Bool) :
    WiFiState × List Command :=
  if st.currentService = Option.some s then
    if rpcFails then
      ({ st with currentService := Option.none },
        Command.disconnect ::
          (match lookupAssoc st.rpcidByService s with
           | Option.some h => [Command.removeNetwork h]
           | Option.none => []))
    else (st, [Command.disconnect])
  else if st.pendingService = Option.some s then
    ({ st with pendingService := Option.none,
               services := setServiceState st.services s ServiceState.idle },
      [Command.disconnect])
  else (st, [])

/-- Modelled from the spec: the missing `WiFi::ConnectTo` in wifi.cc
(spec section 4.3; declared at src/wifi.h lines 140-142).  A request for
the current service, or a repeat of the in-flight pending request, is a
no-op.  Otherwise any different pending service is abandoned first
(test WiFiMainTest.NewConnectPreemptsPending shows the adapter receives
a `Disconnect` for it), then a network entry is provisioned
(`AddNetwork`, yielding a fresh handle) and selected (`SelectNetwork`),
`pending_service` is set and the service is marked associating. -/
def connectTo (st : WiFiState) (s : Nat) : WiFiState × List Command :=
  if st.currentService = Option.some s then (st, [])
  else if st.pendingService = Option.some s then (st, [])
  else
    let abandoned :=
      match st.pendingService with
      | Option.some p => disconnectFrom st p false
      | Option.none => (st, [])
    let st1 := abandoned.1
    let handle := st1.nextHandle
    ({ st1 with
        pendingService := Option.some s
        services := setServiceState st1.services s ServiceState.associating
        rpcidByService := (s, handle) :: removeAssoc st1.rpcidByService s
        nextHandle := handle + 1 },
      abandoned.2 ++ [Command.addNetwork s, Command.selectNetwork handle])

/-- Modelled from the spec: the service state applied to the previously
current service when the adapter reports a null CurrentBSS (spec
section 4.3): Failure if it was never fully connected, otherwise marked
disconnected (idle). -/
def serviceStateAfterDisconnect : ServiceState → ServiceState
  | .connected => .idle
  | .portal => .idle
  | .online => .idle
  | _ => .failure

/-- Modelled from the spec: the null-CurrentBSS branch of the missing
`WiFi::CurrentBSSChanged` / `HandleDisconnect` in wifi.cc (spec section
4.3; test WiFiMainTest.CurrentBSSChangeConnectedToDisconnected): the
previously current service transitions to Failure (or is marked
disconnected if it was fully connected) and `current_service` is
cleared. -/
def handleDisconnect (st : WiFiState) : WiFiState :=
  match st.currentService with
  | Option.none => st
  | Option.some c =>
    { st with
        currentService := Option.none
        services :=
          setServiceState st.services c
            (serviceStateAfterDisconnect (serviceStateAt st c)) }

/-- Modelled from the spec: the non-null branch of the missing
`WiFi::CurrentBSSChanged` / `HandleRoam` in wifi.cc (spec section 4.3).
The BSS handle is resolved to its service; if that service differs from
the current one, the previous current service (if any) is reset to
idle, the resolved service becomes current and is marked configuring,
and if it was the pending service that slot and its timeout are
cleared. -/
def handleRoam (st : WiFiState) (bss : String) : WiFiState :=
  match lookupAssoc st.endpointService bss with
  | Option.none => st
  | Option.some sid =>
    if st.currentService = Option.some sid then st
    else
      { st with
          currentService := Option.some sid
          pendingService := clearSlot st.pendingService sid
          services :=
            setServiceState
              (match st.currentService with
               | Option.some old => setServiceState st.services old ServiceState.idle
               | Option.none => st.services)
              sid ServiceState.configuring }

/-- Modelled from the spec: the missing `WiFi::CurrentBSSChanged` in
wifi.cc (spec section 4.3), dispatching on whether the new CurrentBSS is
null. -/
def currentBSSChanged (st : WiFiState) (newBss : Option String) : WiFiState :=
  match newBss with
  | Option.none => handleDisconnect st
  | Option.some b => handleRoam st b

/-- Modelled from the spec: the service connection state implied by a
supplicant state report (spec section 4.3: reaching "completed" moves
the service toward Configuring; reaching "associated" corresponds to
Associating).  Other station states do not map to a service state. -/
def serviceStateForSupplicant : SupplicantState → Option ServiceState
  | .completed => Option.some ServiceState.configuring
  | .associated => Option.some ServiceState.associating
  | _ => Option.none

/-- The service a supplicant state report applies to: the pending
service if one exists, otherwise the current service (spec section 4.3;
src/wifi.h lines 353-360). -/
def affectedService (st : WiFiState) : Option Nat :=
  match st.pendingService with
  | Option.some p => Option.some p
  | Option.none => st.currentService

/-- Modelled from the spec: the missing `WiFi::StateChanged` in wifi.cc
(spec sections 3 and 4.3; declared at src/wifi.h line 250).  The
supplicant-state bookkeeping is always updated; if the report is a
forward step relative to the previous state and a pending or current
service exists, that service's connection state advances according to
`serviceStateForSupplicant`.  Backward or repeated reports leave every
service state untouched (tests WiFiMainTest.StateChangeWithService and
StateChangeBackwardsWithService). -/
def stateChanged (st : WiFiState) (ns : SupplicantState) : WiFiState :=
  match affectedService st with
  | Option.none => { st with supplicantState := ns }
  | Option.some sid =>
    if st.supplicantState.rank < ns.rank then
      match serviceStateForSupplicant ns with
      | Option.some sstate =>
        { st with
            supplicantState := ns
            services := setServiceState st.services sid sstate }
      | Option.none => { st with supplicantState := ns }
    else { st with supplicantState := ns }

/-- Number of endpoints in a membership map grouped into the service at
index `sid`. -/
def countMembers (es : List (String × Nat)) (sid : Nat) : Nat :=
  (es.filter (fun rs => decide (rs.2 = sid))).length

/-- Whether the service at index `i` is both hidden and favorite (such
services are retained dormant instead of being destroyed when their
last endpoint disappears, spec section 3). -/
def isHiddenFavorite (svs : List Service) (i : Nat) : Bool :=
  match svs.get? i with
  | Option.some sv => sv.hidden && sv.favorite
  | Option.none => false

/-- Modelled from the spec: the missing `WiFi::BSSRemovedTask` /
`OnEndpointRemoved` in wifi.cc (spec section 4.1).  Removing an unknown
handle is a no-op.  Otherwise the endpoint is removed from its service;
if the service becomes empty and is not hidden-and-favorite it is
destroyed, and a destroyed service that was current or pending vacates
that controller slot (an implicit disconnect, spec section 4.3). -/
def bssRemoved (st : WiFiState) (rpcid : String) : WiFiState :=
  match lookupAssoc st.endpointService rpcid with
  | Option.none => st
  | Option.some sid =>
    if countMembers (removeAssoc st.endpointService rpcid) sid = 0 ∧
        isHiddenFavorite st.services sid = false then
      { st with
          endpointService := removeAssoc st.endpointService rpcid
          services := destroyService st.services sid
          currentService := clearSlot st.currentService sid
          pendingService := clearSlot st.pendingService sid }
    else { st with endpointService := removeAssoc st.endpointService rpcid }

/-- Modelled from the spec: attaching a freshly discovered endpoint to
the service directory (the grouping algorithm of the missing
`WiFi::BSSAddedTask` / `CreateServiceForEndpoint` in wifi.cc, spec
section 4.1).  If a live service with the endpoint's grouping key
(SSID, mode, security classification) exists, the endpoint joins it;
otherwise a new service seeded from the endpoint is registered. -/
def attachEndpoint (st : WiFiState) (rpcid : String) (e : Endpoint) : WiFiState :=
  match findService st e.ssid e.mode e.security with
  | Option.some sid =>
    { st with endpointService := (rpcid, sid) :: st.endpointService }
  | Option.none =>
    let sv : Service :=
      { ssid := e.ssid
        mode := e.mode
        security := e.security
        hidden := false
        favorite := false
        state := ServiceState.idle
        live := true }
    { st with
        services := st.services ++ [sv]
        endpointService := (rpcid, st.services.length) :: st.endpointService }

/-- Whether the endpoint's grouping key matches the service at index
`sid`. -/
def keyMatchesService (st : WiFiState) (sid : Nat) (e : Endpoint) : Bool :=
  match st.services.get? sid with
  | Option.some sv =>
    sv.live && decide (sv.ssid = e.ssid) && decide (sv.mode = e.mode) &&
      decide (securityClass sv.security = securityClass e.security)
  | Option.none => false

/-- Modelled from the spec: the missing `WiFi::BSSAddedTask` /
`OnEndpointDiscovered` in wifi.cc (spec section 4.1).  A new handle is
attached by grouping key.  A known handle is updated in place and its
grouping re-evaluated: if the updated endpoint no longer matches its
service's key it is detached (possibly destroying an emptied service)
and re-attached by key. -/
def bssAdded (st : WiFiState) (rpcid : String) (e : Endpoint) : WiFiState :=
  match lookupAssoc st.endpointService rpcid with
  | Option.some sid =>
    if keyMatchesService st sid e then st
    else attachEndpoint (bssRemoved st rpcid) rpcid e
  | Option.none => attachEndpoint st rpcid e

/-- The probe list for a scan request: the raw SSID of every live
hidden-and-favorite service. -/
def hiddenFavoriteSsids (svs : List Service) : List (List Nat) :=
  (svs.filter (fun sv => sv.live && sv.hidden && sv.favorite)).map (fun sv => sv.ssid)

/-- Modelled from the spec: the missing `WiFi::ScanTask` in wifi.cc
(spec section 4.4): the `Scan` request carries one probe entry per
hidden-and-favorite service, followed by exactly one trailing empty
entry requesting a broadcast probe (test WiFiMainTest.ScanHidden and
its HasHiddenSSID matcher). -/
def scanTask (st : WiFiState) : WiFiState × List Command :=
  ({ st with scanPending := true },
    [Command.scan (hiddenFavoriteSsids st.services ++ [[]])])

/-- Modelled from the spec: the missing `WiFi::ScanDoneTask` in wifi.cc
(spec section 4.3): resets the scan bookkeeping only. -/
def scanDoneTask (st : WiFiState) : WiFiState :=
  { st with scanPending := false }

/-- Modelled from the spec: registration of a policy-requested service
with the directory (spec section 4.2, the missing `WiFi::GetService` /
`LoadHiddenServices` paths that pre-create dormant hidden services). -/
def registerService (st : WiFiState) (sv : Service) : WiFiState :=
  { st with services := st.services ++ [sv] }

/-- One task dispatched to the controller: a policy operation
(ConnectTo, DisconnectFrom, Scan, service registration) or an inbound
adapter event (spec section 4.4).  `disconnectFrom` carries the
environment's choice of whether the adapter `Disconnect` RPC fails with
a not-connected condition; `certification` and `eapEvent` are passed
through to the policy layer without touching controller state. -/
inductive Event where
  | connectTo (s : Nat)
  | disconnectFrom (s : Nat) (rpcFails : Bool)
  | scan
  | getService (sv : Service)
  | bssAdded (rpcid : String) (e : Endpoint)
  | bssRemoved (rpcid : String)
  | currentBSSChanged (bss : Option String)
  | stateChanged (ns : SupplicantState)
  | scanDone
  | certification
  | eapEvent
deriving DecidableEq, Repr

/-- Modelled from the spec: the single-threaded dispatcher (spec section
5) applying one task to the controller state and collecting the adapter
commands it issues. -/
def step (st : WiFiState) (ev : Event) : WiFiState × List Command :=
  match ev with
  | Event.connectTo s => connectTo st s
  | Event.disconnectFrom s f => disconnectFrom st s f
  | Event.scan => scanTask st
  | Event.getService sv => (registerService st sv, [])
  | Event.bssAdded r e => (bssAdded st r e, [])
  | Event.bssRemoved r => (bssRemoved st r, [])
  | Event.currentBSSChanged b => (currentBSSChanged st b, [])
  | Event.stateChanged ns => (stateChanged st ns, [])
  | Event.scanDone => (scanDoneTask st, [])
  | Event.certification => (st, [])
  | Event.eapEvent => (st, [])

/-- The controller state after dispatching a sequence of tasks. -/
def run (st : WiFiState) (evs : List Event) : WiFiState :=
  evs.foldl (fun s ev => (step s ev).1) st

/-- The slot invariant of spec section 3: `current_service` and
`pending_service`, when both non-empty, never reference the same
service (src/wifi.h lines 356-359). -/
def SlotsDistinct (st : WiFiState) : Prop :=
  ∀ c, st.currentService = Option.some c → st.pendingService ≠ Option.some c

theorem clearSlot_ne_self (o : Option Nat) (sid : Nat) :
    clearSlot o sid ≠ Option.some sid := by
  unfold clearSlot
  split
  · simp
  · next h => exact h

theorem clearSlot_eq_some {o : Option Nat} {sid c : Nat}
    (h : clearSlot o sid = Option.some c) : o = Option.some c := by
  unfold clearSlot at h
  split at h
  · exact absurd h (by simp)
  · exact h

theorem disconnectFrom_currentService (st : WiFiState) (s : Nat) :
    (disconnectFrom st s false).1.currentService = st.currentService := by
  unfold disconnectFrom
  split
  · rfl
  · split
    · rfl
    · rfl

theorem disconnectFrom_nextHandle (st : WiFiState) (s : Nat) (f : Bool) :
    (disconnectFrom st s f).1.nextHandle = st.nextHandle := by
  unfold disconnectFrom
  split
  · split <;> rfl
  · split <;> rfl

theorem inv_disconnectFrom (st : WiFiState) (s : Nat) (f : Bool)
    (h : SlotsDistinct st) : SlotsDistinct (disconnectFrom st s f).1 := by
  unfold disconnectFrom
  split
  · split
    · intro c hc
      simp at hc
    · exact h
  · split
    · intro c _ hp
      simp at hp
    · exact h

theorem connectTo_currentService (st : WiFiState) (s : Nat) :
    (connectTo st s).1.currentService = st.currentService := by
  by_cases h1 : st.currentService = Option.some s
  · simp [connectTo, h1]
  · by_cases h2 : st.pendingService = Option.some s
    · simp [connectTo, h1, h2]
    · cases hp : st.pendingService with
      | none => simp [connectTo, h1, h2, hp]
      | some p =>
        have hps : p ≠ s := by
          rw [hp] at h2
          simpa using h2
        simp [connectTo, h1, h2, hp, hps, disconnectFrom_currentService]

theorem connectTo_pendingService (st : WiFiState) (s : Nat)
    (h1 : st.currentService ≠ Option.some s)
    (h2 : st.pendingService ≠ Option.some s) :
    (connectTo st s).1.pendingService = Option.some s := by
  cases hp : st.pendingService with
  | none => simp [connectTo, h1, h2, hp]
  | some p =>
    have hps : p ≠ s := by
      rw [hp] at h2
      simpa using h2
    simp [connectTo, h1, h2, hp, hps]

theorem inv_connectTo (st : WiFiState) (s : Nat) (h : SlotsDistinct st) :
    SlotsDistinct (connectTo st s).1 := by
  by_cases h1 : st.currentService = Option.some s
  · simpa [connectTo, h1] using h
  · by_cases h2 : st.pendingService = Option.some s
    · simpa [connectTo, h1, h2] using h
    · intro c hc hp
      rw [connectTo_currentService] at hc
      rw [connectTo_pendingService st s h1 h2] at hp
      have hsc : s = c := by simpa using hp
      rw [← hsc] at hc
      exact h1 hc

theorem inv_handleDisconnect (st : WiFiState) (h : SlotsDistinct st) :
    SlotsDistinct (handleDisconnect st) := by
  unfold handleDisconnect
  split
  · exact h
  · intro c hc
    simp at hc

theorem inv_handleRoam (st : WiFiState) (b : String) (h : SlotsDistinct st) :
    SlotsDistinct (handleRoam st b) := by
  unfold handleRoam
  split
  · exact h
  · split
    · exact h
    · next sid _ _ =>
      intro c hc hp
      have hsc : sid = c := by simpa using hc
      rw [← hsc] at hp
      exact clearSlot_ne_self st.pendingService sid hp

theorem inv_currentBSSChanged (st : WiFiState) (b : Option String)
    (h : SlotsDistinct st) : SlotsDistinct (currentBSSChanged st b) := by
  unfold currentBSSChanged
  cases b
  · exact inv_handleDisconnect st h
  · exact inv_handleRoam st _ h

theorem inv_bssRemoved (st : WiFiState) (r : String) (h : SlotsDistinct st) :
    SlotsDistinct (bssRemoved st r) := by
  unfold bssRemoved
  split
  · exact h
  · split
    · next sid _ _ =>
      intro c hc hp
      have hc2 := clearSlot_eq_some hc
      have hp2 := clearSlot_eq_some hp
      exact h c hc2 hp2
    · exact h

theorem attachEndpoint_currentService (st : WiFiState) (r : String) (e : Endpoint) :
    (attachEndpoint st r e).currentService = st.currentService := by
  unfold attachEndpoint
  split <;> rfl

theorem attachEndpoint_pendingService (st : WiFiState) (r : String) (e : Endpoint) :
    (attachEndpoint st r e).pendingService = st.pendingService := by
  unfold attachEndpoint
  split <;> rfl

theorem inv_attachEndpoint (st : WiFiState) (r : String) (e : Endpoint)
    (h : SlotsDistinct st) : SlotsDistinct (attachEndpoint st r e) := by
  intro c hc hp
  rw [attachEndpoint_currentService] at hc
  rw [attachEndpoint_pendingService] at hp
  exact h c hc hp

theorem inv_bssAdded (st : WiFiState) (r : String) (e : Endpoint)
    (h : SlotsDistinct st) : SlotsDistinct (bssAdded st r e) := by
  unfold bssAdded
  split
  · split
    · exact h
    · exact inv_attachEndpoint _ r e (inv_bssRemoved st r h)
  · exact inv_attachEndpoint _ r e h

theorem stateChanged_currentService (st : WiFiState) (ns : SupplicantState) :
    (stateChanged st ns).currentService = st.currentService := by
  unfold stateChanged
  split
  · rfl
  · split
    · split <;> rfl
    · rfl

theorem stateChanged_pendingService (st : WiFiState) (ns : SupplicantState) :
    (stateChanged st ns).pendingService = st.pendingService := by
  unfold stateChanged
  split
  · rfl
  · split
    · split <;> rfl
    · rfl

theorem inv_stateChanged (st : WiFiState) (ns : SupplicantState)
    (h : SlotsDistinct st) : SlotsDistinct (stateChanged st ns) := by
  intro c hc hp
  rw [stateChanged_currentService] at hc
  rw [stateChanged_pendingService] at hp
  exact h c hc hp

theorem inv_step (st : WiFiState) (ev : Event) (h : SlotsDistinct st) :
    SlotsDistinct (step st ev).1 := by
  cases ev with
  | connectTo s => exact inv_connectTo st s h
  | disconnectFrom s f => exact inv_disconnectFrom st s f h
  | scan => exact h
  | getService sv => exact h
  | bssAdded r e => exact inv_bssAdded st r e h
  | bssRemoved r => exact inv_bssRemoved st r h
  | currentBSSChanged b => exact inv_currentBSSChanged st b h
  | stateChanged ns => exact inv_stateChanged st ns h
  | scanDone => exact h
  | certification => exact h
  | eapEvent => exact h

theorem inv_run (st : WiFiState) (evs : List Event) (h : SlotsDistinct st) :
    SlotsDistinct (run st evs) := by
  induction evs generalizing st with
  | nil => exact h
  | cons ev rest ih => exact ih (step st ev).1 (inv_step st ev h)

/-- C1: For every sequence of controller operations (ConnectTo,
DisconnectFrom, Scan) and adapter events dispatched from the initial
state, the `current_service` and `pending_service` slots, when both
non-empty, never reference the same service. -/
theorem c1_current_pending_never_equal (evs : List Event) :
    SlotsDistinct (run initState evs) := by
  apply inv_run
  intro c hc
  simp [initState] at hc

/-- A BSS property bag with every key absent. -/
def emptyBSSProperties : BSSProperties :=
  { ssid := Option.none
    bssid := Option.none
    signal := Option.none
    mode := Option.none
    rsn := Option.none
    wpa := Option.none
    privacy := Option.none }

/-- C2: The claim states that endpoint construction over a property bag
missing the required fields (SSID, BSSID, Signal, Mode) fails with a
MalformedEvent outcome and never crashes, construction being total.
The `WiFiEndpoint` constructor in src/wifi_endpoint.cc instead
dereferences the missing map entries — its own comment reads "XXX will
segfault on missing properties" — so on such a bag no endpoint (and no
error outcome) is ever produced: construction is not total. -/
theorem c2_endpoint_construction_not_total :
    WiFiEndpointConstruct emptyBSSProperties = Option.none ∧
    ¬ ∀ p : BSSProperties, (WiFiEndpointConstruct p).isSome = true := by
  refine ⟨rfl, fun hall => ?_⟩
  have h := hall emptyBSSProperties
  simp [WiFiEndpointConstruct, emptyBSSProperties] at h

/-- C4: ConnectTo(S) from an idle controller (no current and no pending
service) issues exactly one AddNetwork followed by exactly one
SelectNetwork, and immediately afterwards the pending service is S
while the current service is unchanged. -/
theorem c4_connect_while_idle (st : WiFiState) (s : Nat)
    (h1 : st.currentService = Option.none)
    (h2 : st.pendingService = Option.none) :
    (connectTo st s).2 =
      [Command.addNetwork s, Command.selectNetwork st.nextHandle] ∧
    (connectTo st s).1.pendingService = Option.some s ∧
    (connectTo st s).1.currentService = st.currentService := by
  refine ⟨?_, ?_, ?_⟩ <;> simp [connectTo, h1, h2]

theorem disconnectFrom_abandon_cmds (st : WiFiState) (p : Nat)
    (hp : st.pendingService = Option.some p) :
    (disconnectFrom st p false).2 = [Command.disconnect] := by
  by_cases hc : st.currentService = Option.some p
  · simp [disconnectFrom, hc]
  · simp [disconnectFrom, hc, hp]

/-- C5: While `pending_service == S1`, a ConnectTo(S2) for a different
service S2 leaves `pending_service == S2`, and the adapter receives a
Disconnect command followed by the new AddNetwork and SelectNetwork
calls for S2. -/
theorem c5_connect_preempts_pending (st : WiFiState) (s1 s2 : Nat)
    (hp : st.pendingService = Option.some s1) (h12 : s1 ≠ s2)
    (hc : st.currentService ≠ Option.some s2) :
    (connectTo st s2).1.pendingService = Option.some s2 ∧
    (connectTo st s2).2 =
      [Command.disconnect, Command.addNetwork s2,
        Command.selectNetwork st.nextHandle] := by
  have h2 : st.pendingService ≠ Option.some s2 := by
    rw [hp]
    simpa using h12
  refine ⟨connectTo_pendingService st s2 hc h2, ?_⟩
  have hps : s1 ≠ s2 := h12
  simp [connectTo, hc, h2, hp, hps, disconnectFrom_abandon_cmds st s1 hp,
    disconnectFrom_nextHandle]

/-- C6: When DisconnectFrom targets the current service and the
adapter's Disconnect call fails with a not-connected condition, the
controller invokes RemoveNetwork on that service's network handle and
`current_service` becomes empty. -/
theorem c6_disconnect_failure_cleanup (st : WiFiState) (s hdl : Nat)
    (hc : st.currentService = Option.some s)
    (hh : lookupAssoc st.rpcidByService s = Option.some hdl) :
    (disconnectFrom st s true).1.currentService = Option.none ∧
    (disconnectFrom st s true).2 =
      [Command.disconnect, Command.removeNetwork hdl] := by
  refine ⟨?_, ?_⟩ <;> simp [disconnectFrom, hc, hh]

/-- C7: When DisconnectFrom targets the current service and the adapter
Disconnect call succeeds, the controller state — in particular
`current_service` and that service's connection state — is unchanged
(until the adapter later reports the resulting BSS change); when it
targets the pending service, `pending_service` is cleared immediately
and `current_service` is unchanged. -/
theorem c7_disconnect_frame_effects (st : WiFiState) (s : Nat) :
    (st.currentService = Option.some s →
      (disconnectFrom st s false).1 = st) ∧
    (st.currentService ≠ Option.some s →
      st.pendingService = Option.some s →
        (disconnectFrom st s false).1.pendingService = Option.none ∧
        (disconnectFrom st s false).1.currentService = st.currentService) := by
  constructor
  · intro hc
    simp [disconnectFrom, hc]
  · intro hc hp
    refine ⟨?_, ?_⟩ <;> simp [disconnectFrom, hc, hp]

/-- C8: Every Scan request carries a probe list consisting of entries
for exactly the live hidden-and-favorite services (one entry holding
such a service's raw SSID; no entries for hidden non-favorite or
non-hidden services) followed by exactly one trailing empty entry
requesting a broadcast probe.  The hypothesis that registered services
have non-empty SSIDs reflects the "SSID is too short" validation in the
service creation path (test WiFiMainTest.GetWifiServiceOpenShortSSID). -/
theorem c8_scan_probe_list (st : WiFiState)
    (hne : ∀ sv ∈ st.services, sv.hidden = true → sv.favorite = true →
      sv.ssid ≠ []) :
    (scanTask st).2 =
      [Command.scan (hiddenFavoriteSsids st.services ++ [[]])] ∧
    [] ∉ hiddenFavoriteSsids st.services ∧
    ∀ b : List Nat,
      (b ∈ hiddenFavoriteSsids st.services ↔
        ∃ sv, sv ∈ st.services ∧ sv.live = true ∧ sv.hidden = true ∧
          sv.favorite = true ∧ sv.ssid = b) := by
  refine ⟨rfl, ?_, ?_⟩
  · intro hmem
    simp only [hiddenFavoriteSsids, List.mem_map, List.mem_filter,
      Bool.and_eq_true] at hmem
    obtain ⟨sv, ⟨hsv, ⟨_, hhid⟩, hfav⟩, hssid⟩ := hmem
    exact hne sv hsv hhid hfav hssid
  · intro b
    simp only [hiddenFavoriteSsids, List.mem_map, List.mem_filter,
      Bool.and_eq_true]
    constructor
    · rintro ⟨sv, ⟨hsv, ⟨hlive, hhid⟩, hfav⟩, hssid⟩
      exact ⟨sv, hsv, hlive, hhid, hfav, hssid⟩
    · rintro ⟨sv, hsv, hlive, hhid, hfav, hssid⟩
      exact ⟨sv, ⟨hsv, ⟨hlive, hhid⟩, hfav⟩, hssid⟩

/-- C9: A station-state report that is not a forward transition
relative to the previously recorded station state updates the stored
supplicant-state bookkeeping but leaves every service — in particular
the pending or current service's connection state — untouched; only
forward station-state transitions can advance a service's connection
state. -/
theorem c9_backward_state_report (st : WiFiState) (ns : SupplicantState)
    (hback : ns.rank ≤ st.supplicantState.rank) :
    (stateChanged st ns).supplicantState = ns ∧
    (stateChanged st ns).services = st.services := by
  have hnf : ¬ st.supplicantState.rank < ns.rank := by omega
  unfold stateChanged
  split
  · exact ⟨rfl, rfl⟩
  · simp [hnf]

/-- C10: Service lookup treats wpa, rsn and psk as one security
equivalence class: with a single registered service whose security is
RSN, FindService with security wpa, rsn or psk each return that
service, while FindService with security wep returns no service. -/
theorem c10_find_service_security_class (sv : Service)
    (hsec : sv.security = Security.rsn) (hlive : sv.live = true) :
    findService (registerService initState sv) sv.ssid sv.mode Security.wpa =
      Option.some 0 ∧
    findService (registerService initState sv) sv.ssid sv.mode Security.rsn =
      Option.some 0 ∧
    findService (registerService initState sv) sv.ssid sv.mode Security.psk =
      Option.some 0 ∧
    findService (registerService initState sv) sv.ssid sv.mode Security.wep =
      Option.none := by
  refine ⟨?_, ?_, ?_, ?_⟩ <;>
    simp [findService, registerService, initState, findServiceAux,
      securityClass, hsec, hlive]

/-- The grouping key of an endpoint: SSID, mode and security
classification (spec sections 3 and 4.1). -/
def endpointKey (e : Endpoint) : List Nat × Option Mode × Security :=
  (e.ssid, e.mode, securityClass e.security)

/-- C3: Two discovered endpoints with identical (SSID, mode, security
classification) are grouped into exactly one service (both handles map
to the same single registered service), while a difference in any one
of the three key components places them in separate services. -/
theorem c3_endpoint_grouping (e1 e2 : Endpoint) (r1 r2 : String)
    (hr : r1 ≠ r2) :
    (endpointKey e1 = endpointKey e2 →
      lookupAssoc (bssAdded (bssAdded initState r1 e1) r2 e2).endpointService
          r1 = Option.some 0 ∧
      lookupAssoc (bssAdded (bssAdded initState r1 e1) r2 e2).endpointService
          r2 = Option.some 0 ∧
      (bssAdded (bssAdded initState r1 e1) r2 e2).services.length = 1) ∧
    (endpointKey e1 ≠ endpointKey e2 →
      lookupAssoc (bssAdded (bssAdded initState r1 e1) r2 e2).endpointService
          r1 = Option.some 0 ∧
      lookupAssoc (bssAdded (bssAdded initState r1 e1) r2 e2).endpointService
          r2 = Option.some 1 ∧
      (bssAdded (bssAdded initState r1 e1) r2 e2).services.length = 2) := by
  have hr2 : r2 ≠ r1 := Ne.symm hr
  constructor
  · intro hk
    simp only [endpointKey, Prod.mk.injEq] at hk
    obtain ⟨hs, hm, hc⟩ := hk
    refine ⟨?_, ?_, ?_⟩ <;>
      simp [bssAdded, attachEndpoint, findService, findServiceAux,
        lookupAssoc, initState, hr, hr2, hs, hm, hc]
  · intro hk
    have hcond : ¬(e1.ssid = e2.ssid ∧ e1.mode = e2.mode ∧
        securityClass e1.security = securityClass e2.security) := by
      intro hand
      exact hk (by simp [endpointKey, Prod.mk.injEq, hand.1, hand.2.1,
        hand.2.2])
    refine ⟨?_, ?_, ?_⟩ <;>
      simp [bssAdded, attachEndpoint, findService, findServiceAux,
        lookupAssoc, initState, hr, hr2, hcond]

/-- Fixture: an open ad-hoc endpoint with SSID "ssid". -/
def epA : Endpoint :=
  { ssid := [115, 115, 105, 100]
    bssid := [0, 0, 0, 0, 0, 0]
    signal := 0
    mode := Option.some Mode.adhoc
    security := Security.none }

/-- Fixture: a second endpoint with the same grouping key as `epA`. -/
def epB : Endpoint :=
  { ssid := [115, 115, 105, 100]
    bssid := [0, 0, 0, 0, 0, 1]
    signal := 0
    mode := Option.some Mode.adhoc
    security := Security.none }

/-- Fixture: like `epB` but in infrastructure mode (different grouping
key, as in WiFiMainTest.EndpointGroupingDifferentMode). -/
def epC : Endpoint :=
  { ssid := [115, 115, 105, 100]
    bssid := [0, 0, 0, 0, 0, 1]
    signal := 0
    mode := Option.some Mode.managed
    security := Security.none }

theorem c3_endpoint_grouping_witness :
    (lookupAssoc (bssAdded (bssAdded initState "bss0" epA) "bss1" epB).endpointService
        "bss0" = Option.some 0 ∧
     lookupAssoc (bssAdded (bssAdded initState "bss0" epA) "bss1" epB).endpointService
        "bss1" = Option.some 0 ∧
     (bssAdded (bssAdded initState "bss0" epA) "bss1" epB).services.length = 1) ∧
    (lookupAssoc (bssAdded (bssAdded initState "bss0" epA) "bss1" epC).endpointService
        "bss0" = Option.some 0 ∧
     lookupAssoc (bssAdded (bssAdded initState "bss0" epA) "bss1" epC).endpointService
        "bss1" = Option.some 1 ∧
     (bssAdded (bssAdded initState "bss0" epA) "bss1" epC).services.length = 2) :=
  ⟨(c3_endpoint_grouping epA epB "bss0" "bss1" (by decide)).1 (by decide),
   (c3_endpoint_grouping epA epC "bss0" "bss1" (by decide)).2 (by decide)⟩

/-- Fixture: an open ad-hoc service as seeded from `epA`. -/
def svOpen : Service :=
  { ssid := [115, 115, 105, 100]
    mode := Option.some Mode.adhoc
    security := Security.none
    hidden := false
    favorite := false
    state := ServiceState.idle
    live := true }

/-- Fixture: a second, distinct open service. -/
def svOpen2 : Service :=
  { ssid := [97]
    mode := Option.some Mode.adhoc
    security := Security.none
    hidden := false
    favorite := false
    state := ServiceState.idle
    live := true }

/-- Fixture: an idle controller knowing one service. -/
def stIdle : WiFiState :=
  { initState with services := [svOpen] }

theorem c4_connect_while_idle_witness :
    (connectTo stIdle 0).2 =
      [Command.addNetwork 0, Command.selectNetwork stIdle.nextHandle] ∧
    (connectTo stIdle 0).1.pendingService = Option.some 0 ∧
    (connectTo stIdle 0).1.currentService = stIdle.currentService :=
  c4_connect_while_idle stIdle 0 rfl rfl

/-- Fixture: a controller with a connection attempt pending on service
0 and a second service available. -/
def stPending : WiFiState :=
  { initState with
      services := [svOpen, svOpen2]
      pendingService := Option.some 0 }

theorem c5_connect_preempts_pending_witness :
    (connectTo stPending 1).1.pendingService = Option.some 1 ∧
    (connectTo stPending 1).2 =
      [Command.disconnect, Command.addNetwork 1,
        Command.selectNetwork stPending.nextHandle] :=
  c5_connect_preempts_pending stPending 0 1 rfl (by decide) (by decide)

/-- Fixture: a controller connected to service 0 whose network entry
has handle 0. -/
def stCurrent : WiFiState :=
  { initState with
      services := [{ svOpen with state := ServiceState.connected }]
      currentService := Option.some 0
      rpcidByService := [(0, 0)] }

theorem c6_disconnect_failure_cleanup_witness :
    (disconnectFrom stCurrent 0 true).1.currentService = Option.none ∧
    (disconnectFrom stCurrent 0 true).2 =
      [Command.disconnect, Command.removeNetwork 0] :=
  c6_disconnect_failure_cleanup stCurrent 0 0 rfl rfl

/-- Fixture: a controller connected to service 0 with a roam attempt
pending on service 1. -/
def stCurPend : WiFiState :=
  { initState with
      services := [{ svOpen with state := ServiceState.connected }, svOpen2]
      currentService := Option.some 0
      pendingService := Option.some 1 }

theorem c7_disconnect_frame_effects_witness :
    (disconnectFrom stCurrent 0 false).1 = stCurrent ∧
    ((disconnectFrom stCurPend 1 false).1.pendingService = Option.none ∧
     (disconnectFrom stCurPend 1 false).1.currentService =
       stCurPend.currentService) :=
  ⟨(c7_disconnect_frame_effects stCurrent 0).1 rfl,
   (c7_disconnect_frame_effects stCurPend 1).2 (by decide) rfl⟩

/-- Fixture: a hidden, favorite service with SSID "hid". -/
def svHiddenFav : Service :=
  { ssid := [104, 105, 100]
    mode := Option.some Mode.managed
    security := Security.none
    hidden := true
    favorite := true
    state := ServiceState.idle
    live := true }

/-- Fixture: a directory with one hidden-and-favorite service and one
visible service. -/
def stHidden : WiFiState :=
  { initState with services := [svHiddenFav, svOpen] }

theorem c8_scan_probe_list_witness :
    (scanTask stHidden).2 =
      [Command.scan (hiddenFavoriteSsids stHidden.services ++ [[]])] ∧
    [] ∉ hiddenFavoriteSsids stHidden.services ∧
    ∀ b : List Nat,
      (b ∈ hiddenFavoriteSsids stHidden.services ↔
        ∃ sv, sv ∈ stHidden.services ∧ sv.live = true ∧ sv.hidden = true ∧
          sv.favorite = true ∧ sv.ssid = b) :=
  c8_scan_probe_list stHidden (by decide)

/-- Fixture: a controller whose supplicant has reported `completed` for
the pending service 0. -/
def stCompleted : WiFiState :=
  { initState with
      services := [svOpen]
      pendingService := Option.some 0
      supplicantState := SupplicantState.completed }

theorem c9_backward_state_report_witness :
    (stateChanged stCompleted SupplicantState.authenticating).supplicantState =
      SupplicantState.authenticating ∧
    (stateChanged stCompleted SupplicantState.authenticating).services =
      stCompleted.services :=
  c9_backward_state_report stCompleted SupplicantState.authenticating
    (by decide)

/-- Fixture: an RSN-secured service as created by GetService in
WiFiMainTest.FindServiceWPA. -/
def svRsn : Service :=
  { ssid := [97, 110]
    mode := Option.some Mode.managed
    security := Security.rsn
    hidden := false
    favorite := false
    state := ServiceState.idle
    live := true }

theorem c10_find_service_security_class_witness :
    findService (registerService initState svRsn) svRsn.ssid svRsn.mode
      Security.wpa = Option.some 0 ∧
    findService (registerService initState svRsn) svRsn.ssid svRsn.mode
      Security.rsn = Option.some 0 ∧
    findService (registerService initState svRsn) svRsn.ssid svRsn.mode
      Security.psk = Option.some 0 ∧
    findService (registerService initState svRsn) svRsn.ssid svRsn.mode
      Security.wep = Option.none :=
  c10_find_service_security_class svRsn rfl rfl

end Shill



